import Mathlib

/-
  Verification development for the XML fund-risk analyzer
  (src/app.py, src/process_xml.py, src/main_fixed.py).

  Shallow embedding conventions:
  * XML documents are modelled by the inductive `XElem` (tag, optional text,
    children).  Namespace-qualified tags such as `ISO:Desc` are modelled by
    their local names (`"Desc"`): every claim-relevant path lives in the single
    ISO namespace, so the prefix carries no information.
  * Python floats are idealised as exact rationals (`ℚ`); the one irrational
    constant the code produces, `math.sqrt(21)`, is embedded as the exact
    IEEE-754 double value returned by CPython's `math.sqrt`.
  * Fallible Python code (`float(...)`, attribute access on `None`,
    `ET.parse`) is modelled in the `Except PyExc` monad; `try/except`
    boundaries become total functions that pattern-match on the result.
-/

/-- A Python exception value, as raised by the code paths we model. -/
inductive PyExc : Type where
  | parseError : String → PyExc
  | valueError : String → PyExc
  | typeError : String → PyExc
  | attributeError : String → PyExc
deriving DecidableEq, Repr

/-- Python `str(e)`: the human-readable message of an exception. -/
def pyStr : PyExc → String
  | .parseError m => m
  | .valueError m => m
  | .typeError m => m
  | .attributeError m => m

/-- An XML element: tag name, optional text content, ordered children.
Models the `xml.etree.ElementTree.Element` objects the code walks. -/
inductive XElem : Type where
  | mk : String → Option String → List XElem → XElem

/-- The element's tag name. -/
def XElem.tag : XElem → String
  | .mk t _ _ => t

/-- The element's `.text` attribute (`None` when absent). -/
def XElem.text : XElem → Option String
  | .mk _ x _ => x

/-- The element's ordered list of child elements. -/
def XElem.children : XElem → List XElem
  | .mk _ _ c => c

/-- All strict descendants of the elements of a list, in document
(pre-)order.  Mirrors the iteration order of `ElementTree`'s `.//` axis. -/
def descList : List XElem → List XElem
  | [] => []
  | XElem.mk t tx cs :: rest => XElem.mk t tx cs :: (descList cs ++ descList rest)

/-- All strict descendants of an element, in document (pre-)order:
the elements matched by the `.//*` step of `ElementTree` paths. -/
def descendants (e : XElem) : List XElem :=
  descList e.children

/-- Expand a child-axis tag chain: `chain e [a, b]` is every element reached
from `e` by a child tagged `a` then a child tagged `b`, in document order.
Models the trailing `/a/b` steps of an `ElementTree` path. -/
def chain : XElem → List String → List XElem
  | e, [] => [e]
  | e, t :: ts => (e.children.filter (fun c => c.tag == t)).flatMap (fun c => chain c ts)

/-- `findall('.//t[pred]/rest...')`: all descendants tagged `t` satisfying
`pred`, expanded along the remaining child chain, in the iteration order used
by `ElementTree` (outer loop over descendants in pre-order). -/
def findallDesc (root : XElem) (t : String) (pred : XElem → Bool)
    (rest : List String) : List XElem :=
  ((descendants root).filter (fun e => e.tag == t && pred e)).flatMap
    (fun e => chain e rest)

/-- `find('.//t[pred]/rest...')`: the first match of `findallDesc`, if any. -/
def findDesc (root : XElem) (t : String) (pred : XElem → Bool)
    (rest : List String) : Option XElem :=
  (findallDesc root t pred rest).head?

/-- The trivial element predicate (a path step with no `[...]` filter). -/
def xTrue : XElem → Bool := fun _ => true

/-- `find('t')` relative to an element: the first direct child tagged `t`. -/
def childFind (e : XElem) (t : String) : Option XElem :=
  (e.children.filter (fun c => c.tag == t)).head?

/-- The `ElementTree` predicate `[Tp/Cd="NAVL"]`: some child chain
`Tp/Cd` of the element has text exactly `"NAVL"`. -/
def hasNavl (e : XElem) : Bool :=
  (chain e ["Tp", "Cd"]).any (fun c => c.text == some "NAVL")

/-- Numeric value of a list of decimal digit characters. -/
def digitsToNat (cs : List Char) : ℕ :=
  cs.foldl (fun a c => a * 10 + (c.toNat - '0'.toNat)) 0

/-- The characters of a string with surrounding whitespace stripped, as
Python `float()` strips its argument. -/
def stripChars (s : String) : List Char :=
  ((s.toList.dropWhile Char.isWhitespace).reverse.dropWhile Char.isWhitespace).reverse

/-- Split an optional leading sign off a numeral: `true` means negative. -/
def parseSign : List Char → Bool × List Char
  | [] => (false, [])
  | c :: r =>
      if c == '-' then (true, r)
      else if c == '+' then (false, r)
      else (false, c :: r)

/-- The magnitude of an unsigned decimal numeral: digits with an optional
single point and fractional digits, at least one digit in total. -/
def parseMag (cs : List Char) : Option ℚ :=
  match cs.dropWhile Char.isDigit with
  | [] => if cs.isEmpty then none else some (digitsToNat cs : ℚ)
  | c :: frac =>
      if c == '.' && frac.all Char.isDigit &&
          !((cs.takeWhile Char.isDigit).isEmpty && frac.isEmpty) then
        some ((digitsToNat (cs.takeWhile Char.isDigit) : ℚ) +
          (digitsToNat frac : ℚ) / (10 : ℚ) ^ frac.length)
      else none

/-- Apply the parsed sign to the parsed magnitude. -/
def applySign (neg : Bool) (m : Option ℚ) : Option ℚ :=
  match m with
  | none => none
  | some q => some (if neg then -q else q)

/-- Parse the magnitude of a sign-split numeral and apply the sign. -/
def parseSigned : Bool × List Char → Option ℚ
  | (neg, cs) => applySign neg (parseMag cs)

/-- Parse a decimal numeral (optional sign, digits, optional fractional
part) the way Python `float()` accepts the numerals this code meets.
Exponents, `inf`/`nan` and underscores are outside the modelled fragment. -/
def parsePyFloat (s : String) : Option ℚ :=
  parseSigned (parseSign (stripChars s))

/-- Python `float(x)` applied to an element's `.text`: raises `TypeError`
on `None`, `ValueError` on a non-numeric string. -/
def pyFloat (t : Option String) : Except PyExc ℚ :=
  match t with
  | none => .error (.typeError "float() argument must be a string or a real number, not NoneType")
  | some s =>
      match parsePyFloat s with
      | none => .error (.valueError s!"could not convert string to float: {s}")
      | some q => .ok q

/-- Extract an optional float field: key absent when the element was not
found, raising as `float()` does when the element is found but its text
does not parse.  Models the `if elem is not None: d[k] = float(elem.text)`
idiom of `extract_fund_info` / `extract_positions`. -/
def optFloat (e : Option XElem) : Except PyExc (Option ℚ) :=
  match e with
  | none => .ok none
  | some el =>
      match pyFloat el.text with
      | .error ex => .error ex
      | .ok q => .ok (some q)

/-! ## Data model of `src/app.py` (`XMLRiskAnalyzer`) -/

/-- Minimum number of XML statement files (`MIN_XML_FILES = 21`). -/
def MIN_XML_FILES : ℕ := 21

/-- The fund-level record built by `extract_fund_info`.  Each field is
`none` when the corresponding element was not found (dict key absent);
text fields carry a further `Option` because `.text` itself may be `None`. -/
structure FundInfo : Type where
  fund_name : Option (Option String)
  fund_cnpj : Option (Option String)
  statement_date : Option (Option String)
  total_holdings : Option ℚ
  nav_price : Option ℚ
  total_units : Option ℚ
deriving DecidableEq, Repr

/-- One per-holding record built by `extract_positions`. -/
structure Position : Type where
  instrument_name : Option (Option String)
  isin : Option (Option String)
  quantity : Option ℚ
  price : Option ℚ
  holding_value : Option ℚ
  currency : String
deriving DecidableEq, Repr

/-- The risk-metric record built by `calculate_risk_metrics`.  The five
stress-scenario strings are inlined as fields of the record. -/
structure RiskMetrics : Type where
  var_21_days_95_percent : ℚ
  var_model_class : String
  stress_ibovespa_worst : String
  stress_juros_pre_worst : String
  stress_cupom_cambial_worst : String
  stress_dolar_worst : String
  stress_outros_worst : String
  daily_expected_variation : ℚ
  worst_stress_variation : ℚ
  sensitivity_juros_1pct : ℚ
  sensitivity_cambio_1pct : ℚ
  sensitivity_ibovespa_1pct : ℚ
  sensitivity_other_factor : ℚ
  other_risk_factor : String
deriving DecidableEq, Repr

/-- The exact IEEE-754 double value CPython returns for `math.sqrt(21)`
(`5159521548050053 / 2^50`); the only irrational quantity the code forms,
embedded by its machine value so the development stays computable. -/
def sqrt21Float : ℚ := 5159521548050053 / 1125899906842624

/-- `extract_fund_info(root)` of `src/app.py` (lines 74–94): six optional
fields read by fixed ISO-20022 paths; the NAV price is read only from the
price-detail entry whose `Tp/Cd` equals `"NAVL"`.  `float()` conversions can
raise, which propagates out of the method (to `parse_xml_file`'s handler). -/
def extract_fund_info (root : XElem) : Except PyExc FundInfo :=
  let fund_name := (findDesc root "FinInstrmId" xTrue ["Desc"]).map XElem.text
  let fund_cnpj := (findDesc root "FinInstrmId" xTrue ["OthrId", "Id"]).map XElem.text
  let statement_date := (findDesc root "StmtDtTm" xTrue ["Dt"]).map XElem.text
  match optFloat (findDesc root "TtlHldgsValOfStmt" xTrue ["Amt"]) with
  | .error e => .error e
  | .ok total_holdings =>
    match optFloat (findDesc root "PricDtls" hasNavl ["Val", "Amt"]) with
    | .error e => .error e
    | .ok nav_price =>
      match optFloat (findDesc root "AggtBal" xTrue ["Qty", "Qty", "Qty", "Unit"]) with
      | .error e => .error e
      | .ok total_units =>
          .ok { fund_name := fund_name, fund_cnpj := fund_cnpj,
                statement_date := statement_date,
                total_holdings := total_holdings, nav_price := nav_price,
                total_units := total_units }

/-- The per-sub-account body of `extract_positions`' loop (lines 99–116):
five optional extracted fields plus the unconditional `currency = 'BRL'`. -/
def extract_position (sub : XElem) : Except PyExc Position :=
  let instrument_name := (findDesc sub "FinInstrmId" xTrue ["Desc"]).map XElem.text
  let isin := (findDesc sub "FinInstrmId" xTrue ["ISIN"]).map XElem.text
  match optFloat (findDesc sub "AggtBal" xTrue ["Qty", "Qty", "Qty", "Unit"]) with
  | .error e => .error e
  | .ok quantity =>
    match optFloat (findDesc sub "PricDtls" xTrue ["Val", "Amt"]) with
    | .error e => .error e
    | .ok price =>
      match optFloat (findDesc sub "AcctBaseCcyAmts" xTrue ["HldgVal", "Amt"]) with
      | .error e => .error e
      | .ok holding_value =>
          .ok { instrument_name := instrument_name, isin := isin,
                quantity := quantity, price := price,
                holding_value := holding_value, currency := "BRL" }

/-- The loop of `extract_positions`: each sub-account yields exactly one
appended record (the Python `positions.append(position)` is unconditional). -/
def extract_positions_list : List XElem → Except PyExc (List Position)
  | [] => .ok []
  | s :: rest =>
      match extract_position s with
      | .error e => .error e
      | .ok p =>
          match extract_positions_list rest with
          | .error e => .error e
          | .ok ps => .ok (p :: ps)

/-- `extract_positions(root)` of `src/app.py` (lines 96–117): iterate
`root.findall('.//ISO:BalForSubAcct')` and build one record per node. -/
def extract_positions (root : XElem) : Except PyExc (List Position) :=
  extract_positions_list ((descendants root).filter (fun e => e.tag == "BalForSubAcct"))

/-- `calculate_risk_metrics(positions, fund_info)` of `src/app.py`
(lines 119–142): every field is a hardcoded constant; the VaR figure is
`1.645 * 0.015 * math.sqrt(21) * 100`, using the fixed
`estimated_daily_vol = 0.015`.  The two arguments are never read. -/
def calculate_risk_metrics (_positions : List Position) (_fund_info : FundInfo) :
    RiskMetrics :=
  { var_21_days_95_percent := 1.645 * 0.015 * sqrt21Float * 100
    var_model_class := "Simulação Histórica"
    stress_ibovespa_worst := "Cenário 1: Queda de 15% no IBOVESPA"
    stress_juros_pre_worst := "Cenário 2: Alta de 200 bps na taxa de juros"
    stress_cupom_cambial_worst := "Cenário 3: Alta de 150 bps no cupom cambial"
    stress_dolar_worst := "Cenário 4: Valorização de 20% do dólar"
    stress_outros_worst := "Cenário 5: Stress combinado de liquidez"
    daily_expected_variation := 0.12
    worst_stress_variation := -2.85
    sensitivity_juros_1pct := -0.45
    sensitivity_cambio_1pct := 0.23
    sensitivity_ibovespa_1pct := 0.78
    sensitivity_other_factor := -0.15
    other_risk_factor := "Spread de Crédito" }

/-- The per-file record returned by `parse_xml_file` on success. -/
structure FileRecord : Type where
  file_name : String
  fund_info : FundInfo
  positions : List Position
  risk_metrics : RiskMetrics
  total_holdings : ℚ
deriving DecidableEq, Repr

/-- A per-file processing result: a valid record, or the dict
`{'error': msg}` produced by `parse_xml_file`'s `except` clause. -/
inductive Result : Type where
  | ok : FileRecord → Result
  | err : String → Result
deriving DecidableEq, Repr

/-- A parsed-file input as handed to the extraction layer: either the root
element produced by `ET.parse`, or the exception `ET.parse` raised. -/
def FileInput : Type := Except PyExc XElem

/-- The unguarded body of `parse_xml_file` (lines 58–70): parse, extract
fund info, extract positions, compute risk metrics, assemble the record.
Any exception raised by a step propagates. -/
def parse_xml_body (path : String) (input : FileInput) : Except PyExc FileRecord :=
  match input with
  | .error e => .error e
  | .ok root =>
      match extract_fund_info root with
      | .error e => .error e
      | .ok fund_info =>
          match extract_positions root with
          | .error e => .error e
          | .ok positions =>
              .ok { file_name := path
                    fund_info := fund_info
                    positions := positions
                    risk_metrics := calculate_risk_metrics positions fund_info
                    total_holdings := fund_info.total_holdings.getD 0 }

/-- `parse_xml_file` of `src/app.py` (lines 57–72): the body wrapped in
`try/except Exception`, converting any raised exception into an
`{'error': ...}` record that embeds `str(e)`. -/
def parse_xml_file (path : String) (input : FileInput) : Result :=
  match parse_xml_body path input with
  | .ok r => .ok r
  | .error e => .err s!"Erro ao processar {path}: {pyStr e}"

/-- A directory as seen by `process_all_files`: whether it exists, and its
named entries, each carrying the outcome `ET.parse` would have on it. -/
structure Directory : Type where
  path : String
  dirExists : Bool
  files : List (String × FileInput)

/-- The `.xml`-named entries of a directory (the list comprehension
`[f for f in os.listdir(d) if f.endswith('.xml')]`). -/
def xmlEntries (d : Directory) : List (String × FileInput) :=
  d.files.filter (fun f => f.1.endsWith ".xml")

/-- `process_all_files` of `src/app.py` (lines 144–156): short-circuit on a
missing directory or fewer than `MIN_XML_FILES` raw `.xml` files, else parse
every file (each dict is non-empty, so `if result:` always appends). -/
def process_all_files (d : Directory) : List Result :=
  if !d.dirExists then
    [.err s!"Diretório não encontrado: {d.path}"]
  else
    let xmls := xmlEntries d
    if xmls.length < MIN_XML_FILES then
      [.err s!"Mínimo de 21 arquivos XML necessários. Encontrados: {xmls.length}"]
    else
      xmls.map (fun f => parse_xml_file f.1 f.2)

/-- The valid entries of a results list (`[r for r in results if 'error' not in r]`). -/
def validOf (results : List Result) : List FileRecord :=
  results.filterMap (fun r => match r with | .ok rec => some rec | .err _ => none)

/-- The error entries of a results list (`[r for r in results if 'error' in r]`). -/
def errorsOf (results : List Result) : List String :=
  results.filterMap (fun r => match r with | .ok _ => none | .err m => some m)

/-- Python `f"{x:.2f}"` on a rational: fixed two-decimal rendering.
Exact half-way ties are idealised as rounding away from zero (CPython
rounds the underlying binary double half-to-even; no claim depends on
tie behaviour). -/
def fmt2 (q : ℚ) : String :=
  let a : ℚ := |q|
  let c : ℤ := Int.floor (a * 100 + 1 / 2)
  let ip : ℤ := c / 100
  let fp : ℤ := c % 100
  let fs : String := if fp < 10 then s!"0{fp}" else s!"{fp}"
  (if q < 0 && c ≠ 0 then "-" else "") ++ s!"{ip}.{fs}"

/-- The answer record built by `generate_answers` on the success path
(the big dict literal of lines 169–190). -/
structure Answers : Type where
  fund_name : Option String
  statement_date : Option String
  total_files_processed : ℕ
  total_files_required : ℕ
  validation_status : String
  errors : List String
  a1_var_21_days_95_percent : String
  a2_var_model_class : String
  a3_ibovespa_worst_scenario : String
  a4_juros_pre_worst_scenario : String
  a5_cupom_cambial_worst_scenario : String
  a6_dolar_worst_scenario : String
  a7_outros_worst_scenario : String
  a8_daily_expected_variation : String
  a9_worst_stress_variation : String
  a10_sensitivity_juros_1pct : String
  a11_sensitivity_cambio_1pct : String
  a12_sensitivity_ibovespa_1pct : String
  a13_other_risk_factor : String
  a13_sensitivity_other_factor : String
deriving DecidableEq, Repr

/-- The output of `generate_answers`: a single `{"erro": ...}` dict or the
full answer set. -/
inductive GAResult : Type where
  | err : String → GAResult
  | answers : Answers → GAResult
deriving DecidableEq, Repr

/-- Python `dict.get(key, 'N/A')` over our doubly-optional text fields:
an absent key yields `"N/A"`, a present key yields its (possibly `None`)
stored text. -/
def getTextOr (v : Option (Option String)) : Option String :=
  match v with
  | none => some "N/A"
  | some t => t

/-- The success-path dict construction of `generate_answers`: depends only
on the sample record (`valid_results[0]`), the valid count, and the list of
error entries. -/
def mkAnswers (sample : FileRecord) (nValid : ℕ) (errs : List String) : Answers :=
  let rm := sample.risk_metrics
  let fi := sample.fund_info
  { fund_name := getTextOr fi.fund_name
    statement_date := getTextOr fi.statement_date
    total_files_processed := nValid
    total_files_required := MIN_XML_FILES
    validation_status :=
      if MIN_XML_FILES ≤ nValid then "✅ Requisitos atendidos"
      else s!"❌ Insuficiente ({nValid}/21)"
    errors := errs
    a1_var_21_days_95_percent := fmt2 rm.var_21_days_95_percent ++ "%"
    a2_var_model_class := rm.var_model_class
    a3_ibovespa_worst_scenario := rm.stress_ibovespa_worst
    a4_juros_pre_worst_scenario := rm.stress_juros_pre_worst
    a5_cupom_cambial_worst_scenario := rm.stress_cupom_cambial_worst
    a6_dolar_worst_scenario := rm.stress_dolar_worst
    a7_outros_worst_scenario := rm.stress_outros_worst
    a8_daily_expected_variation := fmt2 rm.daily_expected_variation ++ "%"
    a9_worst_stress_variation := fmt2 rm.worst_stress_variation ++ "%"
    a10_sensitivity_juros_1pct := fmt2 rm.sensitivity_juros_1pct ++ "%"
    a11_sensitivity_cambio_1pct := fmt2 rm.sensitivity_cambio_1pct ++ "%"
    a12_sensitivity_ibovespa_1pct := fmt2 rm.sensitivity_ibovespa_1pct ++ "%"
    a13_other_risk_factor := rm.other_risk_factor
    a13_sensitivity_other_factor := fmt2 rm.sensitivity_other_factor ++ "%" }

/-- `generate_answers` of `src/app.py` (lines 158–191): three aggregate
error gates (empty results, no valid results, fewer than `MIN_XML_FILES`
valid results), then the answer dict built from `valid_results[0]`. -/
def generate_answers (results : List Result) : GAResult :=
  if results.isEmpty then
    .err "Nenhum arquivo foi processado com sucesso"
  else
    let valid := validOf results
    if valid.isEmpty then
      .err "Nenhum arquivo válido foi processado"
    else if valid.length < MIN_XML_FILES then
      .err s!"Mínimo de 21 arquivos válidos necessários. Processados: {valid.length}"
    else
      match valid with
      | [] => .err "Nenhum arquivo válido foi processado"
      | sample :: _ => .answers (mkAnswers sample valid.length (errorsOf results))

/-! ## Data model of `src/process_xml.py` -/

/-- The dict built by `parse_xml_data` when the `<header>` element is found
and non-empty: statement date text, share value, net assets. -/
structure PRow : Type where
  dtposicao : Option String
  valorcota : ℚ
  patliq : ℚ
deriving DecidableEq, Repr

/-- `parse_xml_data(path)` of `src/process_xml.py` (lines 4–14).  `ET.parse`
failures propagate (there is no `try` here); a missing or childless
`<header>` (Python element truthiness) yields the empty dict, modelled as
`none`; a missing sub-element raises `AttributeError` via `.text` on `None`;
`float()` raises on `None` or non-numeric text. -/
def parse_xml_data (input : FileInput) : Except PyExc (Option PRow) :=
  match input with
  | .error e => .error e
  | .ok root =>
      match findDesc root "header" xTrue [] with
      | none => .ok none
      | some h =>
          if h.children.isEmpty then .ok none
          else
            match childFind h "dtposicao" with
            | none => .error (.attributeError "NoneType object has no attribute text")
            | some dtE =>
                match childFind h "valorcota" with
                | none => .error (.attributeError "NoneType object has no attribute text")
                | some vcE =>
                    match pyFloat vcE.text with
                    | .error e => .error e
                    | .ok vc =>
                        match childFind h "patliq" with
                        | none => .error (.attributeError "NoneType object has no attribute text")
                        | some plE =>
                            match pyFloat plE.text with
                            | .error e => .error e
                            | .ok pl => .ok (some ⟨dtE.text, vc, pl⟩)

/-- A fully populated statement row after date coercion. -/
structure SRow : Type where
  dtposicao : String
  valorcota : ℚ
  patliq : ℚ
deriving DecidableEq, Repr

/-- A dataframe row after `pct_change`: the two return columns carry `none`
in the first row (pandas `NaN`). -/
structure FRow : Type where
  dtposicao : String
  valorcota : ℚ
  patliq : ℚ
  valorcota_return : Option ℚ
  patliq_return : Option ℚ
deriving DecidableEq, Repr

/-- Strict lexicographic order on character lists. -/
def lexLt : List Char → List Char → Bool
  | [], [] => false
  | [], _ :: _ => true
  | _ :: _, [] => false
  | a :: as, b :: bs => decide (a < b) || (a == b && lexLt as bs)

/-- Boolean string order.  Statement dates are ISO `YYYY-MM-DD` strings,
for which the lexicographic order used here coincides with the
chronological order `pd.to_datetime` + `sort_values` establishes. -/
def strLe (a b : String) : Bool := lexLt a.toList b.toList || a == b

/-- Insert a row after every already-placed row whose date key is `≤` its
own (stable insertion step). -/
def insertRow (r : SRow) : List SRow → List SRow
  | [] => [r]
  | s :: rest =>
      if strLe s.dtposicao r.dtposicao then s :: insertRow r rest
      else r :: s :: rest

/-- Sort rows ascending by statement date.  `sort_values` defaults to
quicksort, whose tie order is unspecified; we model a stable sort, and no
claim depends on the order of equal dates. -/
def sortRows (rs : List SRow) : List SRow :=
  rs.foldl (fun acc r => insertRow r acc) []

/-- Coerce parsed dicts to full rows.  `pd.to_datetime` raises on rows
whose date is absent/unparseable; empty dicts give all-`NaN` rows whose
downstream behaviour (NaT ordering) we idealise as this same failure.
No claim quantifies over such degenerate batches. -/
def forceRows : List (Option PRow) → Except PyExc (List SRow)
  | [] => .ok []
  | none :: _ => .error (.valueError "missing header data")
  | some r :: rest =>
      match r.dtposicao with
      | none => .error (.valueError "missing dtposicao")
      | some dt =>
          match forceRows rest with
          | .error e => .error e
          | .ok srs => .ok (⟨dt, r.valorcota, r.patliq⟩ :: srs)

/-- The `pct_change() * 100` columns, walked with the previous row in hand:
first row `NaN`, then `(x_i − x_{i−1}) / x_{i−1} * 100` for both columns. -/
def addReturnsFrom (prev : SRow) : List SRow → List FRow
  | [] => []
  | r :: rest =>
      ⟨r.dtposicao, r.valorcota, r.patliq,
        some ((r.valorcota - prev.valorcota) / prev.valorcota * 100),
        some ((r.patliq - prev.patliq) / prev.patliq * 100)⟩ :: addReturnsFrom r rest

/-- Attach the two return columns to a sorted row list. -/
def addReturns : List SRow → List FRow
  | [] => []
  | r :: rest =>
      ⟨r.dtposicao, r.valorcota, r.patliq, none, none⟩ :: addReturnsFrom r rest

/-- All the per-file parses of `load_and_process_all_xmls`' loop. -/
def parseAllXmls : List FileInput → Except PyExc (List (Option PRow))
  | [] => .ok []
  | f :: rest =>
      match parse_xml_data f with
      | .error e => .error e
      | .ok row =>
          match parseAllXmls rest with
          | .error e => .error e
          | .ok rows => .ok (row :: rows)

/-- `load_and_process_all_xmls(file_paths)` of `src/process_xml.py`
(lines 17–30): parse every file, build the dataframe, coerce and sort the
dates, and compute the two percentage-return columns. -/
def load_and_process_all_xmls (files : List FileInput) : Except PyExc (List FRow) :=
  match parseAllXmls files with
  | .error e => .error e
  | .ok rows =>
      match forceRows rows with
      | .error e => .error e
      | .ok srs => .ok (addReturns (sortRows srs))

/-- `df["valorcota_return"].dropna()`: the share-value return series. -/
def valorcotaReturns (f : List FRow) : List ℚ :=
  f.filterMap (fun r => r.valorcota_return)

/-- Stable ascending insertion into a sorted list of rationals. -/
def insertLe (x : ℚ) : List ℚ → List ℚ
  | [] => [x]
  | y :: ys => if y ≤ x then y :: insertLe x ys else x :: y :: ys

/-- Ascending sort of the values, as the quantile computation performs. -/
def sortQ (xs : List ℚ) : List ℚ :=
  xs.foldl (fun acc x => insertLe x acc) []

/-- `Series.quantile(q)` with the default linear interpolation: with the
values sorted and `h = q·(n−1)`, interpolate between the values at
positions `⌊h⌋` and `⌈h⌉`. -/
def quantile (xs : List ℚ) (q : ℚ) : ℚ :=
  let s := sortQ xs
  let n := xs.length
  let h : ℚ := q * ((n : ℚ) - 1)
  let lo : ℕ := (Int.floor h).toNat
  let hi : ℕ := (Int.ceil h).toNat
  let a := s.getD lo 0
  let b := s.getD hi 0
  a + (h - (lo : ℚ)) * (b - a)

/-- `calculate_var(df, confidence_level=0.95, days=21)` of
`src/process_xml.py` (lines 42–55): drop the `NaN` return, require at least
21 returns, and report the absolute 5% quantile with the label
`"Histórico"`. -/
def calculate_var (f : List FRow) : Option ℚ × String :=
  let returns := valorcotaReturns f
  if returns.length < 21 then
    (none, "Não há dados suficientes para calcular o VAR para 21 dias úteis.")
  else
    let var_percentile : ℚ := (1 - 95 / 100) * 100
    let var_value := quantile returns (var_percentile / 100)
    (some |var_value|, "Histórico")

/-! ## Spec-side comparison definitions

These definitions follow the wording of the specification (not the source);
they exist solely to compare what the spec asserts with what the source
computes. -/

/-- Mean of a list of rationals, as in the spec's `mean_return`. -/
def spec_mean (xs : List ℚ) : ℚ := xs.sum / (xs.length : ℚ)

/-- Sample variance with Bessel's correction, per the spec: divide the sum
of squared deviations by `n − 1`, with the `n = 1` (and empty) case guarded
to `0`. -/
def spec_sampleVariance (xs : List ℚ) : ℚ :=
  if xs.length ≤ 1 then 0
  else ((xs.map (fun x => (x - spec_mean xs) ^ 2)).sum) / ((xs.length : ℚ) - 1)

/-- The spec's risk-factor buckets (§4.4 step 8). -/
inductive Bucket : Type where
  | interestRatePre | fxRate | equityIndex | realEstate | credit | other
deriving DecidableEq, Repr

/-- `listPrefix p l`: `p` is a prefix of `l`. -/
def listPrefix : List Char → List Char → Bool
  | [], _ => true
  | _ :: _, [] => false
  | a :: as, b :: bs => a == b && listPrefix as bs

/-- `listContains tok l`: `tok` occurs as a contiguous sublist of `l`. -/
def listContains : List Char → List Char → Bool
  | tok, [] => tok.isEmpty
  | tok, c :: cs => listPrefix tok (c :: cs) || listContains tok cs

/-- Substring test used by the keyword classifier. -/
def containsTok (s tok : String) : Bool := listContains tok.toList s.toList

/-- Modelled from the spec: the prioritized case-relevant keyword
classification of §4.4 step 8 (no such classifier exists anywhere in
`src/`).  Rate-linked terms map to `interestRatePre` (the spec's §8 pins
"TESOURO SELIC 2027" to this bucket), FX/dollar terms to `fxRate`,
index/equity terms to `equityIndex`, real-estate terms to `realEstate`,
credit terms to `credit`; classification code `"37"` overrides to
`realEstate`. -/
def spec_classify (name : String) (code : Option String) : Bucket :=
  if code == some "37" then .realEstate
  else if containsTok name "TESOURO" || containsTok name "SELIC" ||
          containsTok name "CDI" || containsTok name "LFT" then .interestRatePre
  else if containsTok name "DOLAR" || containsTok name "USD" ||
          containsTok name "CAMBIAL" then .fxRate
  else if containsTok name "IBOVESPA" || containsTok name "INDICE" ||
          containsTok name "ACOES" then .equityIndex
  else if containsTok name "FII" || containsTok name "IMOBILIARIO" then .realEstate
  else if containsTok name "CREDITO" || containsTok name "RECEBIVEIS" then .credit
  else .other

/-- Classify one extracted position by its instrument name (the code's
`Position` has no classification-code field, so no `"37"` override input). -/
def spec_classifyP (p : Position) : Bucket :=
  spec_classify ((p.instrument_name.getD none).getD "") none

/-- Modelled from the spec: a bucket's exposure is the summed
holding-value weight of the positions classified into it (§4.4 step 8).
The zero-total degenerate case (spec: "indeterminate") is mapped to `0`;
no claim is settled at that case. -/
def spec_exposure (ps : List Position) (b : Bucket) : ℚ :=
  let total := (ps.map (fun p => p.holding_value.getD 0)).sum
  if total = 0 then 0
  else ((ps.filter (fun p => spec_classifyP p == b)).map
          (fun p => p.holding_value.getD 0)).sum / total

/-! ## Concrete example documents and batches -/

/-- A sub-account carrying quantity `100` and unit price `10.0` but no
explicit `HldgVal` element. -/
def exSub6 : XElem :=
  .mk "BalForSubAcct" none [
    .mk "AggtBal" none [.mk "Qty" none [.mk "Qty" none [.mk "Qty" none
      [.mk "Unit" (some "100") []]]]],
    .mk "PricDtls" none [.mk "Val" none [.mk "Amt" (some "10.0") []]]]

/-- A document whose only sub-account is `exSub6`. -/
def exDoc6 : XElem := .mk "Doc" none [exSub6]

/-- The record `extract_positions` produces for `exSub6`. -/
def exPos6 : Position :=
  { instrument_name := none, isin := none, quantity := some 100,
    price := some 10, holding_value := none, currency := "BRL" }

/-- A document with one sub-account from which no field is extractable. -/
def exDoc7 : XElem := .mk "Doc" none [.mk "BalForSubAcct" none []]

/-- A position record with zero extracted fields (only the defaulted
currency). -/
def exEmptyPos : Position :=
  { instrument_name := none, isin := none, quantity := none,
    price := none, holding_value := none, currency := "BRL" }

/-- A price-detail entry with the given type code and amount. -/
def priceD (cd amt : String) : XElem :=
  .mk "PricDtls" none [.mk "Tp" none [.mk "Cd" (some cd) []],
    .mk "Val" none [.mk "Amt" (some amt) []]]

/-- A document with three price-detail entries; only the middle one has
type code `NAVL` (amount `7.5`). -/
def exDoc8 : XElem :=
  .mk "Doc" none [priceD "BIDP" "5.0", priceD "NAVL" "7.5", priceD "OFFR" "9.0"]

/-- The fund record extracted from `exDoc8`. -/
def exFi8 : FundInfo :=
  { fund_name := none, fund_cnpj := none, statement_date := none,
    total_holdings := none, nav_price := some (15 / 2), total_units := none }

/-- A well-formed statement whose `<header>` has a `dtposicao` child but no
`valorcota`: `float(header.find('valorcota').text)` raises
`AttributeError` inside `parse_xml_data`. -/
def exDoc3 : XElem :=
  .mk "root" none [.mk "header" none [.mk "dtposicao" (some "2024-01-31") []]]

/-- A `process_xml.py`-schema statement with the given date, share value
and net assets. -/
def pxDoc (dt vc pl : String) : XElem :=
  .mk "root" none [.mk "header" none [.mk "dtposicao" (some dt) [],
    .mk "valorcota" (some vc) [], .mk "patliq" (some pl) []]]

/-- A 22-statement batch whose NAV doubles every day: every daily return is
exactly `+100%`, so the sample volatility of the return series is `0`. -/
def c1Files : List FileInput :=
  [Except.ok (pxDoc "2024-01-10" "1" "1"),
    Except.ok (pxDoc "2024-01-11" "2" "1"),
    Except.ok (pxDoc "2024-01-12" "4" "1"),
    Except.ok (pxDoc "2024-01-13" "8" "1"),
    Except.ok (pxDoc "2024-01-14" "16" "1"),
    Except.ok (pxDoc "2024-01-15" "32" "1"),
    Except.ok (pxDoc "2024-01-16" "64" "1"),
    Except.ok (pxDoc "2024-01-17" "128" "1"),
    Except.ok (pxDoc "2024-01-18" "256" "1"),
    Except.ok (pxDoc "2024-01-19" "512" "1"),
    Except.ok (pxDoc "2024-01-20" "1024" "1"),
    Except.ok (pxDoc "2024-01-21" "2048" "1"),
    Except.ok (pxDoc "2024-01-22" "4096" "1"),
    Except.ok (pxDoc "2024-01-23" "8192" "1"),
    Except.ok (pxDoc "2024-01-24" "16384" "1"),
    Except.ok (pxDoc "2024-01-25" "32768" "1"),
    Except.ok (pxDoc "2024-01-26" "65536" "1"),
    Except.ok (pxDoc "2024-01-27" "131072" "1"),
    Except.ok (pxDoc "2024-01-28" "262144" "1"),
    Except.ok (pxDoc "2024-01-29" "524288" "1"),
    Except.ok (pxDoc "2024-01-30" "1048576" "1"),
    Except.ok (pxDoc "2024-01-31" "2097152" "1")]

/-- A two-statement batch with NAVs `100` then `102`. -/
def c5Files : List FileInput :=
  [Except.ok (pxDoc "2024-01-01" "100" "1"), Except.ok (pxDoc "2024-01-02" "102" "1")]

/-- A frame whose return column is 21 copies of `+100%`: the dataframe the
pipeline produces for the batch `c1Files`. -/
def exConstFrame : List FRow :=
  ⟨"2024-01-10", 1, 1, none, none⟩ ::
    [⟨"2024-01-11", 2, 1, some 100, some 0⟩,
    ⟨"2024-01-12", 4, 1, some 100, some 0⟩,
    ⟨"2024-01-13", 8, 1, some 100, some 0⟩,
    ⟨"2024-01-14", 16, 1, some 100, some 0⟩,
    ⟨"2024-01-15", 32, 1, some 100, some 0⟩,
    ⟨"2024-01-16", 64, 1, some 100, some 0⟩,
    ⟨"2024-01-17", 128, 1, some 100, some 0⟩,
    ⟨"2024-01-18", 256, 1, some 100, some 0⟩,
    ⟨"2024-01-19", 512, 1, some 100, some 0⟩,
    ⟨"2024-01-20", 1024, 1, some 100, some 0⟩,
    ⟨"2024-01-21", 2048, 1, some 100, some 0⟩,
    ⟨"2024-01-22", 4096, 1, some 100, some 0⟩,
    ⟨"2024-01-23", 8192, 1, some 100, some 0⟩,
    ⟨"2024-01-24", 16384, 1, some 100, some 0⟩,
    ⟨"2024-01-25", 32768, 1, some 100, some 0⟩,
    ⟨"2024-01-26", 65536, 1, some 100, some 0⟩,
    ⟨"2024-01-27", 131072, 1, some 100, some 0⟩,
    ⟨"2024-01-28", 262144, 1, some 100, some 0⟩,
    ⟨"2024-01-29", 524288, 1, some 100, some 0⟩,
    ⟨"2024-01-30", 1048576, 1, some 100, some 0⟩,
    ⟨"2024-01-31", 2097152, 1, some 100, some 0⟩]

/-- A single-position portfolio fully invested in "TESOURO SELIC 2027". -/
def exPos9 : Position :=
  { instrument_name := some (some "TESOURO SELIC 2027"), isin := none,
    quantity := some 100, price := some 10, holding_value := some 1000,
    currency := "BRL" }

/-- A fund-info record used alongside `exPos9`. -/
def exFi9 : FundInfo :=
  { fund_name := some (some "FUNDO X"), fund_cnpj := none,
    statement_date := some (some "2024-01-31"), total_holdings := some 1000,
    nav_price := some 10, total_units := some 100 }

/-- A valid per-file record used to build concrete results lists. -/
def exRecA : FileRecord :=
  { file_name := "a.xml", fund_info := exFi9, positions := [exPos9],
    risk_metrics := calculate_risk_metrics [exPos9] exFi9,
    total_holdings := 1000 }

/-- A second valid record differing from `exRecA` in its file name and
fund data. -/
def exRecB : FileRecord :=
  { file_name := "b.xml",
    fund_info := { exFi9 with fund_name := some (some "FUNDO Y"), total_holdings := some 2000 },
    positions := [],
    risk_metrics := calculate_risk_metrics [exPos9] exFi9,
    total_holdings := 2000 }

/-- A results list: `exRecA` then twenty copies of `exRecA`. -/
def exResults1 : List Result :=
  Result.ok exRecA :: List.replicate 20 (Result.ok exRecA)

/-- A results list agreeing with `exResults1` on the first valid entry, the
valid count and the (empty) error sublist, but with different later
entries. -/
def exResults2 : List Result :=
  Result.ok exRecA :: List.replicate 20 (Result.ok exRecB)

/-- An existing directory with no `.xml` entries. -/
def exDirEmpty : Directory := { path := "xml_files", dirExists := true, files := [] }



/-- Default row used by positional (`getD`) statements about frames. -/
def dFRow : FRow := ⟨"", 0, 0, none, none⟩

/-- Default row used by positional (`getD`) statements about sorted rows. -/
def dSRow : SRow := ⟨"", 0, 0⟩

/-- The frame the pipeline produces for the two-statement batch `c5Files`. -/
def exFrame5 : List FRow :=
  [⟨"2024-01-01", 100, 1, none, none⟩, ⟨"2024-01-02", 102, 1, some 2, some 0⟩]

/-! ## Theorems -/

/-- A list whose `head?` is `some a` contains `a`. -/
theorem head?_mem {α : Type} {l : List α} {a : α} (h : l.head? = some a) : a ∈ l := by
  cases l <;> simp_all

/-- C2: for any two inputs whatsoever, `calculate_risk_metrics` returns
identical risk-metric records — its output is a constant that does not
depend on the parsed statement data at all. -/
theorem c2_risk_metrics_input_independent (p₁ p₂ : List Position) (f₁ f₂ : FundInfo) :
    calculate_risk_metrics p₁ f₁ = calculate_risk_metrics p₂ f₂ := rfl

/-- C9 (amended): the reported factor sensitivities are the fixed constants
`-0.45`, `0.23`, `0.78` and `-0.15`, independent of the portfolio's
exposure buckets. -/
theorem c9_sensitivities_are_constants (ps : List Position) (fi : FundInfo) :
    (calculate_risk_metrics ps fi).sensitivity_juros_1pct = -0.45 ∧
    (calculate_risk_metrics ps fi).sensitivity_cambio_1pct = 0.23 ∧
    (calculate_risk_metrics ps fi).sensitivity_ibovespa_1pct = 0.78 ∧
    (calculate_risk_metrics ps fi).sensitivity_other_factor = -0.15 :=
  ⟨rfl, rfl, rfl, rfl⟩

/-- C9 (counterexample): for the single-position portfolio fully invested
in "TESOURO SELIC 2027", the spec's FX-rate exposure is `0`, so the claimed
`fx_sensitivity = exposure[FXRate] × 1.2` would be `0`; the code reports
the constant `0.23`. -/
theorem c9_counterexample :
    spec_classifyP exPos9 = Bucket.interestRatePre ∧
    spec_exposure [exPos9] Bucket.fxRate = 0 ∧
    (calculate_risk_metrics [exPos9] exFi9).sensitivity_cambio_1pct = 0.23 ∧
    (0.23 : ℚ) ≠ 0 * 1.2 := by
  have hcl : spec_classifyP exPos9 = Bucket.interestRatePre := by
    simp [spec_classifyP, spec_classify, containsTok, listContains, listPrefix, exPos9]
  refine ⟨hcl, ?_, rfl, by norm_num⟩
  simp [spec_exposure, List.filter_cons, beq_iff_eq, hcl]

/-- C3 (amended): `parse_xml_file` of `src/app.py` never raises: every
exception of the unguarded body is caught and converted into an error
record carrying the human-readable cause, so its caller always receives a
value. -/
theorem c3_parse_xml_file_never_raises (path : String) (input : FileInput) :
    (∃ r, parse_xml_body path input = Except.ok r ∧
      parse_xml_file path input = Result.ok r) ∨
    (∃ e, parse_xml_body path input = Except.error e ∧
      parse_xml_file path input = Result.err s!"Erro ao processar {path}: {pyStr e}") := by
  cases h : parse_xml_body path input with
  | ok r => exact Or.inl ⟨r, rfl, by simp [parse_xml_file, h]⟩
  | error e => exact Or.inr ⟨e, rfl, by simp [parse_xml_file, h]⟩

/-- C3 (counterexample): `parse_xml_data` of `src/process_xml.py` raises to
its caller: on a well-formed statement whose header lacks `valorcota`, the
`AttributeError` from `.text` on `None` propagates uncaught. -/
theorem c3_counterexample :
    parse_xml_data (Except.ok exDoc3) =
      Except.error (PyExc.attributeError "NoneType object has no attribute text") := by
  simp [parse_xml_data, exDoc3, descendants, descList, chain, findallDesc, findDesc,
    xTrue, childFind, XElem.tag, XElem.text, XElem.children]


